import Mathlib

/-!
Verification development for the streaming-progress reconciliation layer of
the Cognocere browser client.

The definitions below are a shallow embedding of the relevant JavaScript:

* `UnifiedResearchView` (the streaming reconciler component): its component
  state, its `stepMapping` table, its progress-stream `onmessage` handler,
  its report-stream `onmessage` handler, and both `onerror` handlers.
* `ResearchContext.addActivity` (the shared activity log).
* `StreamingDisplay.addProgressUpdate` (the structured progress-update list
  with its duplicate check).
* `streamUtils.createStream`'s `start` / `stop` lifecycle.

JavaScript strings that may be absent (`undefined`) are modelled as
`Option String`; JavaScript truthiness of a string (`if (s)`) is modelled as
the test `s ≠ ""` on present strings.  The browser guarantee that a closed
`EventSource` delivers no further events is modelled by guarding each
handler on an explicit `progressOpen` / `reportOpen` flag: a message
arriving on a closed subscription leaves the state unchanged.
-/

namespace Cognocere

/-- The `report` object carried by a progress message.  Only
`markdown_content` is inspected by the reconciler; the code checks
`typeof data.report.markdown_content === 'string'`, so a missing or
non-string field is modelled as `none`. -/
structure ReportPayload where
  markdown_content : Option String
deriving DecidableEq

/-- A decoded JSON progress frame: `\x7bstatus?, detail?, message?, error?, report?\x7d`.
Any subset of fields may be present. -/
structure ProgressData where
  status : Option String := none
  detail : Option String := none
  message : Option String := none
  error : Option String := none
  report : Option ReportPayload := none
deriving DecidableEq

/-- An inbound frame on the progress stream: either it parses as a JSON
object (`json`), or `JSON.parse` fails and the raw text is handled by the
plain-text branch (`text`). -/
inductive ProgressMsg where
  | json (d : ProgressData)
  | text (s : String)
deriving DecidableEq

/-- An inbound frame on the report stream.  The constructors mirror the
string dispatch in the handler: `chunk s` is a frame starting with
`"\x7b\"report_chunk\":"` whose parsed `report_chunk` field is `s`; `sentinel raw`
is a frame whose raw text contains `"\"status\": \"completed\""` (the raw
text is retained because the handler writes it into `reportContent`);
`other raw` is any other frame (ignored by the handler's `try`/`catch`). -/
inductive ReportMsg where
  | chunk (s : String)
  | sentinel (raw : String)
  | other (raw : String)
deriving DecidableEq

/-- The reconciler state of `UnifiedResearchView`, plus the context pieces it
writes (`processingStatus`, `activityLog`) and the two subscription flags.
Activity-log entries are `(step, content)` pairs; the wall-clock timestamp
attached by `addActivity` is not modelled. -/
structure RState where
  currentStep : String
  stepDetail : String
  reportContent : String
  isReportStreaming : Bool
  isReportComplete : Bool
  error : Option String
  statusRef : Option String
  processingStatus : String
  activityLog : List (String × String)
  structuredReport : Option ReportPayload
  progressOpen : Bool
  reportOpen : Bool
deriving DecidableEq

/-- State set by the progress-stream effect when it attaches for a session:
all view state is reset and the progress subscription is opened. -/
def initState : RState :=
  { currentStep := "Connecting to progress stream..."
    stepDetail := ""
    reportContent := ""
    isReportStreaming := false
    isReportComplete := false
    error := none
    statusRef := none
    processingStatus := ""
    activityLog := []
    structuredReport := none
    progressOpen := true
    reportOpen := false }

/-- The fixed status-to-step table (`stepMapping` in the source). -/
def stepMapping (s : String) : Option String :=
  if s = "initiating" then some "Clarification"
  else if s = "clarification" then some "Clarification"
  else if s = "planning" then some "Planning"
  else if s = "searching" then some "Research"
  else if s = "reading" then some "Research"
  else if s = "generating_report" then some "Report"
  else if s = "completed" then some "Complete"
  else none

/-- Position of a mapped step in the fixed order
Clarification < Planning < Research < Report < Complete (`stepChain`). -/
def stepIndex (s : String) : Nat :=
  if s = "Clarification" then 0
  else if s = "Planning" then 1
  else if s = "Research" then 2
  else if s = "Report" then 3
  else 4

/-- JavaScript `x || dflt` for a string-or-undefined value. -/
def orDefault (o : Option String) (dflt : String) : String :=
  match o with
  | some s => if s = "" then dflt else s
  | none => dflt

/-- `ResearchContext.addActivity`: unconditionally appends the entry. -/
def addActivity (log : List (String × String)) (stepId content : String) :
    List (String × String) :=
  log ++ [(stepId, content)]

/-- Shared logging path of the progress handler: look up the step mapped
from the last received status (`statusRef.current || 'unknown'`); if the
lookup succeeds, append the activity, otherwise only `console.warn`. -/
def logActivity (st : RState) (content : String) : RState :=
  match stepMapping (st.statusRef.getD "unknown") with
  | some stepId => { st with activityLog := addActivity st.activityLog stepId content }
  | none => st

/-- New value of `currentStep` after a recognized status: the mapped step if
the table has one, otherwise unchanged (`console.warn` only). -/
def mappedStep (st : RState) (s : String) : String :=
  match stepMapping s with
  | some stepId => stepId
  | none => st.currentStep

/-- Whether a status value triggers the report-stream effect
(`generating_report`, `report_generation` or `report_streaming`). -/
def triggersReportStreaming (s : String) : Bool :=
  s = "generating_report" || s = "report_generation" || s = "report_streaming"

/-- The `if (data.status)` block: record the raw status in `statusRef` and
the context, possibly set `isReportStreaming`, and set `currentStep` to the
mapped step.  There is no comparison with the previous step. -/
def handleStatus (st : RState) (d : ProgressData) : RState :=
  match d.status with
  | none => st
  | some s =>
    if s = "" then st
    else
      { st with
          statusRef := some s
          processingStatus := s
          isReportStreaming :=
            if triggersReportStreaming s then true else st.isReportStreaming
          currentStep := mappedStep st s }

/-- The `if (data.detail)` block: log the detail under the step mapped from
the current `statusRef`. -/
def handleDetail (st : RState) (d : ProgressData) : RState :=
  match d.detail with
  | none => st
  | some det => if det = "" then st else logActivity st det

/-- The `if (data.message)` block: update `stepDetail`. -/
def handleMessage (st : RState) (d : ProgressData) : RState :=
  match d.message with
  | none => st
  | some m => if m = "" then st else { st with stepDetail := m }

/-- The `if (data.status === 'error')` block: set the error, force
`currentStep` to `Error`, close both subscriptions and return. -/
def handleError (st : RState) (d : ProgressData) : RState :=
  { st with
      error := some (orDefault d.error "An unknown error occurred during research.")
      currentStep := "Error"
      processingStatus := "error"
      stepDetail := orDefault d.error "Unknown error"
      progressOpen := false
      reportOpen := false }

/-- The inline final-report markdown of a progress frame, when
`data.report && typeof data.report.markdown_content === 'string'`. -/
def inlineMarkdown (d : ProgressData) : Option String :=
  match d.report with
  | some r => r.markdown_content
  | none => none

/-- The `if (data.status === 'completed')` block: set the UI step and the
completion flag unconditionally, then either install the inline markdown or
an error placeholder, and close both subscriptions. -/
def handleCompletion (st : RState) (d : ProgressData) : RState :=
  match inlineMarkdown d with
  | some md =>
      { st with
          currentStep := "Completed"
          processingStatus := "completed"
          stepDetail := "Research finished. Final report below."
          isReportComplete := true
          reportContent := md
          isReportStreaming := false
          progressOpen := false
          reportOpen := false }
  | none =>
      { st with
          currentStep := "Completed"
          processingStatus := "completed"
          stepDetail := "Research finished. Final report below."
          isReportComplete := true
          reportContent := "[Error: Failed to load final report content]"
          progressOpen := false
          reportOpen := false }

/-- The trailing `if (data.report)` block (reached when the message is not
an error frame): store the structured report object. -/
def storeReport (st : RState) (d : ProgressData) : RState :=
  match d.report with
  | some r => { st with structuredReport := some r }
  | none => st

/-- Handling of a decoded JSON progress frame, in source order: status,
detail, message, then the error branch (which returns early), then the
completion branch, then the structured-report store. -/
def handleJson (st : RState) (d : ProgressData) : RState :=
  let st1 := handleStatus st d
  let st2 := handleDetail st1 d
  let st3 := handleMessage st2 d
  if d.status = some "error" then handleError st3 d
  else
    let st4 := if d.status = some "completed" then handleCompletion st3 d else st3
    storeReport st4 d

/-- `progressEs.onmessage`: a frame on an open progress subscription is
decoded and dispatched; a frame on a closed subscription is not delivered. -/
def onProgressMessage (st : RState) (m : ProgressMsg) : RState :=
  if st.progressOpen then
    match m with
    | .json d => handleJson st d
    | .text s => logActivity st s
  else st

/-- `reportEs.onmessage`: a chunk frame appends its (truthy) text, a
completion sentinel stops streaming, sets the completion flag and writes the
raw frame into `reportContent`; other frames are ignored. -/
def onReportMessage (st : RState) (m : ReportMsg) : RState :=
  if st.reportOpen then
    match m with
    | .chunk s =>
        if s = "" then st else { st with reportContent := st.reportContent ++ s }
    | .sentinel raw =>
        { st with
            isReportStreaming := false
            isReportComplete := true
            reportContent := raw }
    | .other _ => st
  else st

/-- `progressEs.onerror`: a transport error on the progress subscription
sets the error, forces `currentStep` to `Error` and closes both
subscriptions. -/
def onProgressError (st : RState) : RState :=
  if st.progressOpen then
    { st with
        error := some "Connection error with progress stream."
        currentStep := "Error"
        stepDetail := "Lost connection to progress updates."
        progressOpen := false
        reportOpen := false }
  else st

/-- `reportEs.onerror`: a transport error on the report subscription only
emits a toast warning, clears `isReportStreaming` and closes the report
subscription. -/
def onReportError (st : RState) : RState :=
  if st.reportOpen then
    { st with
        isReportStreaming := false
        reportOpen := false }
  else st

/-- The report-stream effect body: when the session is streaming a report
and not yet complete, open the report subscription and reset the
accumulator to the empty string before any chunk is handled. -/
def openReportStream (st : RState) : RState :=
  if st.isReportStreaming && !st.isReportComplete then
    { st with reportOpen := true, reportContent := "" }
  else st

/-- Teardown on every exit path: both subscriptions are closed.  (The
progress effect cleanup closes the progress source; the report effect
cleanup closes the report source.) -/
def detach (st : RState) : RState :=
  { st with progressOpen := false, reportOpen := false }

/-- An external event delivered to the reconciler: a message or a transport
error on one of the two subscriptions. -/
inductive Event where
  | progressMsg (m : ProgressMsg)
  | reportMsg (m : ReportMsg)
  | progressErr
  | reportErr
deriving DecidableEq

/-- One event against the reconciler. -/
def stepEvent (st : RState) (e : Event) : RState :=
  match e with
  | .progressMsg m => onProgressMessage st m
  | .reportMsg m => onReportMessage st m
  | .progressErr => onProgressError st
  | .reportErr => onReportError st

/-- A sequence of events in arrival order. -/
def processEvents (st : RState) (es : List Event) : RState :=
  es.foldl stepEvent st

/-- A sequence of report-stream frames in arrival order. -/
def processReportMsgs (st : RState) (ms : List ReportMsg) : RState :=
  ms.foldl onReportMessage st

/-- Concatenation of a list of chunk strings in order. -/
def concatChunks : List String → String
  | [] => ""
  | c :: cs => c ++ concatChunks cs

/-- `StreamingDisplay.addProgressUpdate`: append a `(type, content)` entry
unless an identical pair is already present. -/
def addProgressUpdate (log : List (String × String)) (ty content : String) :
    List (String × String) :=
  if log.any fun u => u.1 == ty && u.2 == content then log
  else log ++ [(ty, content)]

/-- The `createStream` closure state of `streamUtils.js`: whether an
`EventSource` currently exists and whether the stream is active. -/
structure CreateStreamState where
  hasSource : Bool
  isActive : Bool
deriving DecidableEq

/-- `createStream.start`: a no-op when a source already exists. -/
def streamStart (s : CreateStreamState) : CreateStreamState :=
  if s.hasSource then s else { hasSource := true, isActive := true }

/-- `createStream.stop`: closes and clears the source when one exists,
otherwise does nothing. -/
def streamStop (s : CreateStreamState) : CreateStreamState :=
  if s.hasSource then { hasSource := false, isActive := false } else s

/-! Helper lemmas: which fields each handler leaves untouched. -/

@[simp]
theorem logActivity_currentStep (st : RState) (c : String) :
    (logActivity st c).currentStep = st.currentStep := by
  unfold logActivity; split <;> rfl

@[simp]
theorem logActivity_reportContent (st : RState) (c : String) :
    (logActivity st c).reportContent = st.reportContent := by
  unfold logActivity; split <;> rfl

@[simp]
theorem logActivity_isReportComplete (st : RState) (c : String) :
    (logActivity st c).isReportComplete = st.isReportComplete := by
  unfold logActivity; split <;> rfl

@[simp]
theorem logActivity_error (st : RState) (c : String) :
    (logActivity st c).error = st.error := by
  unfold logActivity; split <;> rfl

@[simp]
theorem logActivity_statusRef (st : RState) (c : String) :
    (logActivity st c).statusRef = st.statusRef := by
  unfold logActivity; split <;> rfl

@[simp]
theorem logActivity_progressOpen (st : RState) (c : String) :
    (logActivity st c).progressOpen = st.progressOpen := by
  unfold logActivity; split <;> rfl

@[simp]
theorem logActivity_reportOpen (st : RState) (c : String) :
    (logActivity st c).reportOpen = st.reportOpen := by
  unfold logActivity; split <;> rfl

@[simp]
theorem handleStatus_reportContent (st : RState) (d : ProgressData) :
    (handleStatus st d).reportContent = st.reportContent := by
  unfold handleStatus; split <;> first | rfl | (split <;> rfl)

@[simp]
theorem handleStatus_isReportComplete (st : RState) (d : ProgressData) :
    (handleStatus st d).isReportComplete = st.isReportComplete := by
  unfold handleStatus; split <;> first | rfl | (split <;> rfl)

@[simp]
theorem handleStatus_error (st : RState) (d : ProgressData) :
    (handleStatus st d).error = st.error := by
  unfold handleStatus; split <;> first | rfl | (split <;> rfl)

@[simp]
theorem handleStatus_activityLog (st : RState) (d : ProgressData) :
    (handleStatus st d).activityLog = st.activityLog := by
  unfold handleStatus; split <;> first | rfl | (split <;> rfl)

@[simp]
theorem handleStatus_progressOpen (st : RState) (d : ProgressData) :
    (handleStatus st d).progressOpen = st.progressOpen := by
  unfold handleStatus; split <;> first | rfl | (split <;> rfl)

@[simp]
theorem handleStatus_reportOpen (st : RState) (d : ProgressData) :
    (handleStatus st d).reportOpen = st.reportOpen := by
  unfold handleStatus; split <;> first | rfl | (split <;> rfl)

@[simp]
theorem handleDetail_currentStep (st : RState) (d : ProgressData) :
    (handleDetail st d).currentStep = st.currentStep := by
  unfold handleDetail; split <;> first | rfl | (split <;> simp)

@[simp]
theorem handleDetail_reportContent (st : RState) (d : ProgressData) :
    (handleDetail st d).reportContent = st.reportContent := by
  unfold handleDetail; split <;> first | rfl | (split <;> simp)

@[simp]
theorem handleDetail_isReportComplete (st : RState) (d : ProgressData) :
    (handleDetail st d).isReportComplete = st.isReportComplete := by
  unfold handleDetail; split <;> first | rfl | (split <;> simp)

@[simp]
theorem handleDetail_error (st : RState) (d : ProgressData) :
    (handleDetail st d).error = st.error := by
  unfold handleDetail; split <;> first | rfl | (split <;> simp)

@[simp]
theorem handleDetail_statusRef (st : RState) (d : ProgressData) :
    (handleDetail st d).statusRef = st.statusRef := by
  unfold handleDetail; split <;> first | rfl | (split <;> simp)

@[simp]
theorem handleDetail_progressOpen (st : RState) (d : ProgressData) :
    (handleDetail st d).progressOpen = st.progressOpen := by
  unfold handleDetail; split <;> first | rfl | (split <;> simp)

@[simp]
theorem handleDetail_reportOpen (st : RState) (d : ProgressData) :
    (handleDetail st d).reportOpen = st.reportOpen := by
  unfold handleDetail; split <;> first | rfl | (split <;> simp)

@[simp]
theorem handleMessage_currentStep (st : RState) (d : ProgressData) :
    (handleMessage st d).currentStep = st.currentStep := by
  unfold handleMessage; split <;> first | rfl | (split <;> rfl)

@[simp]
theorem handleMessage_reportContent (st : RState) (d : ProgressData) :
    (handleMessage st d).reportContent = st.reportContent := by
  unfold handleMessage; split <;> first | rfl | (split <;> rfl)

@[simp]
theorem handleMessage_isReportComplete (st : RState) (d : ProgressData) :
    (handleMessage st d).isReportComplete = st.isReportComplete := by
  unfold handleMessage; split <;> first | rfl | (split <;> rfl)

@[simp]
theorem handleMessage_error (st : RState) (d : ProgressData) :
    (handleMessage st d).error = st.error := by
  unfold handleMessage; split <;> first | rfl | (split <;> rfl)

@[simp]
theorem handleMessage_statusRef (st : RState) (d : ProgressData) :
    (handleMessage st d).statusRef = st.statusRef := by
  unfold handleMessage; split <;> first | rfl | (split <;> rfl)

@[simp]
theorem handleMessage_activityLog (st : RState) (d : ProgressData) :
    (handleMessage st d).activityLog = st.activityLog := by
  unfold handleMessage; split <;> first | rfl | (split <;> rfl)

@[simp]
theorem handleMessage_progressOpen (st : RState) (d : ProgressData) :
    (handleMessage st d).progressOpen = st.progressOpen := by
  unfold handleMessage; split <;> first | rfl | (split <;> rfl)

@[simp]
theorem handleMessage_reportOpen (st : RState) (d : ProgressData) :
    (handleMessage st d).reportOpen = st.reportOpen := by
  unfold handleMessage; split <;> first | rfl | (split <;> rfl)

@[simp]
theorem handleError_isReportComplete (st : RState) (d : ProgressData) :
    (handleError st d).isReportComplete = st.isReportComplete := rfl

@[simp]
theorem handleError_currentStep (st : RState) (d : ProgressData) :
    (handleError st d).currentStep = "Error" := rfl

@[simp]
theorem handleError_progressOpen (st : RState) (d : ProgressData) :
    (handleError st d).progressOpen = false := rfl

@[simp]
theorem handleError_reportOpen (st : RState) (d : ProgressData) :
    (handleError st d).reportOpen = false := rfl

@[simp]
theorem handleError_error (st : RState) (d : ProgressData) :
    (handleError st d).error
      = some (orDefault d.error "An unknown error occurred during research.") := rfl

@[simp]
theorem handleCompletion_isReportComplete (st : RState) (d : ProgressData) :
    (handleCompletion st d).isReportComplete = true := by
  unfold handleCompletion; split <;> rfl

@[simp]
theorem handleCompletion_currentStep (st : RState) (d : ProgressData) :
    (handleCompletion st d).currentStep = "Completed" := by
  unfold handleCompletion; split <;> rfl

@[simp]
theorem handleCompletion_progressOpen (st : RState) (d : ProgressData) :
    (handleCompletion st d).progressOpen = false := by
  unfold handleCompletion; split <;> rfl

@[simp]
theorem handleCompletion_reportOpen (st : RState) (d : ProgressData) :
    (handleCompletion st d).reportOpen = false := by
  unfold handleCompletion; split <;> rfl

@[simp]
theorem handleCompletion_reportContent (st : RState) (d : ProgressData) :
    (handleCompletion st d).reportContent
      = (inlineMarkdown d).getD "[Error: Failed to load final report content]" := by
  unfold handleCompletion
  rcases h : inlineMarkdown d with _ | md <;> simp [h]

@[simp]
theorem storeReport_currentStep (st : RState) (d : ProgressData) :
    (storeReport st d).currentStep = st.currentStep := by
  unfold storeReport; split <;> rfl

@[simp]
theorem storeReport_reportContent (st : RState) (d : ProgressData) :
    (storeReport st d).reportContent = st.reportContent := by
  unfold storeReport; split <;> rfl

@[simp]
theorem storeReport_isReportComplete (st : RState) (d : ProgressData) :
    (storeReport st d).isReportComplete = st.isReportComplete := by
  unfold storeReport; split <;> rfl

@[simp]
theorem storeReport_error (st : RState) (d : ProgressData) :
    (storeReport st d).error = st.error := by
  unfold storeReport; split <;> rfl

@[simp]
theorem storeReport_activityLog (st : RState) (d : ProgressData) :
    (storeReport st d).activityLog = st.activityLog := by
  unfold storeReport; split <;> rfl

@[simp]
theorem storeReport_progressOpen (st : RState) (d : ProgressData) :
    (storeReport st d).progressOpen = st.progressOpen := by
  unfold storeReport; split <;> rfl

@[simp]
theorem storeReport_reportOpen (st : RState) (d : ProgressData) :
    (storeReport st d).reportOpen = st.reportOpen := by
  unfold storeReport; split <;> rfl

/-- An event delivered after both subscriptions are closed leaves the state
unchanged. -/
theorem stepEvent_closed (st : RState) (e : Event)
    (hp : st.progressOpen = false) (hr : st.reportOpen = false) :
    stepEvent st e = st := by
  cases e <;>
    simp [stepEvent, onProgressMessage, onReportMessage, onProgressError,
      onReportError, hp, hr]

/-- A whole trace delivered after both subscriptions are closed leaves the
state unchanged. -/
theorem processEvents_closed (st : RState) (es : List Event)
    (hp : st.progressOpen = false) (hr : st.reportOpen = false) :
    processEvents st es = st := by
  induction es with
  | nil => rfl
  | cons e es ih =>
      show processEvents (stepEvent st e) es = st
      rw [stepEvent_closed st e hp hr, ih]

/-- Processing one report-stream chunk frame keeps the report subscription
open and appends the chunk text. -/
theorem onReportMessage_chunk_spec (st : RState) (c : String)
    (h : st.reportOpen = true) :
    (onReportMessage st (ReportMsg.chunk c)).reportOpen = true ∧
    (onReportMessage st (ReportMsg.chunk c)).reportContent
      = st.reportContent ++ c := by
  unfold onReportMessage
  rcases eq_or_ne c "" with rfl | hc
  · simp [h]
  · simp [h, hc]

/-- Chunk-only traces concatenate in arrival order onto the existing text. -/
theorem processReportMsgs_chunks (st : RState) (cs : List String)
    (h : st.reportOpen = true) :
    (processReportMsgs st (cs.map ReportMsg.chunk)).reportContent
      = st.reportContent ++ concatChunks cs := by
  induction cs generalizing st with
  | nil => simp [processReportMsgs, concatChunks]
  | cons c cs ih =>
      have hspec := onReportMessage_chunk_spec st c h
      show (processReportMsgs (onReportMessage st (ReportMsg.chunk c))
              (cs.map ReportMsg.chunk)).reportContent = _
      rw [ih _ hspec.1, hspec.2, concatChunks, String.append_assoc]

/-- Claim C9 (confirmed): `detach` is always safe — `createStream.stop` is a
no-op when no source exists and idempotent under repeated calls, closing
both reconciler subscriptions is idempotent, and after `detach` every
further event delivered on the old subscriptions leaves the reconciler
state (every field of `RState`) unchanged. -/
theorem c9_detach_safe_and_absorbing :
    (∀ s : CreateStreamState, streamStop (streamStop s) = streamStop s) ∧
    streamStop { hasSource := false, isActive := false }
      = { hasSource := false, isActive := false } ∧
    (∀ st : RState, detach (detach st) = detach st) ∧
    (∀ (st : RState) (es : List Event), processEvents (detach st) es = detach st) := by
  refine ⟨?_, rfl, ?_, ?_⟩
  · intro s
    unfold streamStop
    rcases s with ⟨hs, ia⟩
    cases hs <;> simp
  · intro st
    rfl
  · intro st es
    exact processEvents_closed (detach st) es rfl rfl

/-- Claim C10 (confirmed): every run of the report-stream effect that opens
(or re-opens) the report subscription resets the accumulator to the empty
string, discarding all previously accumulated chunk text. -/
theorem c10_open_report_stream_resets_accumulator (st : RState)
    (h1 : st.isReportStreaming = true) (h2 : st.isReportComplete = false) :
    (openReportStream st).reportContent = "" ∧
    (openReportStream st).reportOpen = true := by
  unfold openReportStream
  simp [h1, h2]

/-- Witness for C10 at a state holding previously accumulated chunk text. -/
theorem c10_witness :
    (openReportStream
        { initState with isReportStreaming := true, reportContent := "stale chunks" }
      ).reportContent = "" ∧
    (openReportStream
        { initState with isReportStreaming := true, reportContent := "stale chunks" }
      ).reportOpen = true :=
  c10_open_report_stream_resets_accumulator _ rfl rfl

/-- Claim C2 (confirmed): (1) over any sequence of chunk frames with no
inline final payload, the report text is the exact concatenation of the
chunk strings in arrival order; (2) a progress frame with terminal status
and an inline `markdown_content` payload makes the report text exactly that
payload, with no previously accumulated text remaining; and (3) such a
frame closes both subscriptions, so the replaced text survives any further
event trace unchanged. -/
theorem c2_report_text_accumulation :
    (∀ (st : RState) (cs : List String), st.reportOpen = true →
      (processReportMsgs st (cs.map ReportMsg.chunk)).reportContent
        = st.reportContent ++ concatChunks cs) ∧
    (∀ (st : RState) (d : ProgressData) (r : ReportPayload) (md : String),
      st.progressOpen = true → d.status = some "completed" →
      d.report = some r → r.markdown_content = some md →
      (onProgressMessage st (ProgressMsg.json d)).reportContent = md ∧
      (∀ es : List Event,
        processEvents (onProgressMessage st (ProgressMsg.json d)) es
          = onProgressMessage st (ProgressMsg.json d))) := by
  constructor
  · intro st cs h
    exact processReportMsgs_chunks st cs h
  · intro st d r md hp hs hr hmd
    have hmain : onProgressMessage st (ProgressMsg.json d)
        = storeReport (handleCompletion
            (handleMessage (handleDetail (handleStatus st d) d) d) d) d := by
      unfold onProgressMessage handleJson
      simp [hp, hs]
    have hcontent : (onProgressMessage st (ProgressMsg.json d)).reportContent = md := by
      rw [hmain]
      simp [inlineMarkdown, hr, hmd]
    refine ⟨hcontent, ?_⟩
    intro es
    apply processEvents_closed
    · rw [hmain]; simp
    · rw [hmain]; simp

/-- Witness for C2: two chunks concatenate in order, and an inline payload
replaces previously accumulated text entirely. -/
theorem c2_witness :
    (processReportMsgs { initState with reportOpen := true }
        (["Intro ", "text."].map ReportMsg.chunk)).reportContent
      = "Intro text." ∧
    (onProgressMessage
        { initState with reportContent := "partial ", isReportStreaming := true }
        (ProgressMsg.json
          { status := some "completed"
            report := some { markdown_content := some "FULL" } })).reportContent
      = "FULL" := by
  constructor
  · rw [c2_report_text_accumulation.1 { initState with reportOpen := true }
        ["Intro ", "text."] rfl]
    decide
  · exact (c2_report_text_accumulation.2
      { initState with reportContent := "partial ", isReportStreaming := true }
      { status := some "completed"
        report := some { markdown_content := some "FULL" } }
      { markdown_content := some "FULL" } "FULL" rfl rfl rfl rfl).1

/-- Claim C3 counterexample: the status branch has no monotonicity guard, so
a stale status whose mapped step is lower than the current step moves
`currentStep` backward — here from `Planning` back to `Clarification` —
without any error being involved. -/
theorem c3_counterexample :
    (processEvents initState
        [Event.progressMsg (ProgressMsg.json { status := some "planning" })]
      ).currentStep = "Planning" ∧
    (processEvents initState
        [Event.progressMsg (ProgressMsg.json { status := some "planning" }),
         Event.progressMsg (ProgressMsg.json { status := some "initiating" })]
      ).currentStep = "Clarification" ∧
    stepIndex "Clarification" < stepIndex "Planning" :=
  ⟨rfl, rfl, by decide⟩

/-- Claim C3 amended: `currentStep` simply follows the most recent mapped
status (last-writer-wins) with no monotonicity guard, so a stale or
duplicate status whose mapped step is lower does move it backward; an
error-status payload still sets `Error` and, because it closes both
subscriptions, no subsequent message moves the state out of it. -/
theorem c3_step_follows_latest_status :
    (∀ (st : RState) (s t : String), st.progressOpen = true →
       stepMapping s = some t → s ≠ "completed" →
       (onProgressMessage st (ProgressMsg.json { status := some s })).currentStep = t) ∧
    (∀ (st : RState) (d : ProgressData), st.progressOpen = true →
       d.status = some "error" →
       (onProgressMessage st (ProgressMsg.json d)).currentStep = "Error" ∧
       ∀ es : List Event,
         processEvents (onProgressMessage st (ProgressMsg.json d)) es
           = onProgressMessage st (ProgressMsg.json d)) := by
  constructor
  · intro st s t hp hmap hncomp
    have hne : s ≠ "" := by rintro rfl; simp [stepMapping] at hmap
    have herr : s ≠ "error" := by rintro rfl; simp [stepMapping] at hmap
    unfold onProgressMessage handleJson
    simp [hp, herr, hncomp, handleDetail, handleMessage, storeReport,
      handleStatus, hne, mappedStep, hmap]
  · intro st d hp hs
    have hmain : onProgressMessage st (ProgressMsg.json d)
        = handleError (handleMessage (handleDetail (handleStatus st d) d) d) d := by
      unfold onProgressMessage handleJson
      simp [hp, hs]
    refine ⟨by rw [hmain]; simp, ?_⟩
    intro es
    apply processEvents_closed
    · rw [hmain]; simp
    · rw [hmain]; simp

/-- Witness for the amended C3: a stale `searching` status processed while
the view is already at `Report` moves the step back to `Research`. -/
theorem c3_witness :
    (onProgressMessage { initState with currentStep := "Report" }
        (ProgressMsg.json { status := some "searching" })).currentStep
      = "Research" :=
  c3_step_follows_latest_status.1 { initState with currentStep := "Report" }
    "searching" "Research" rfl rfl (by decide)

/-- Claim C4 counterexample: `addActivity` appends unconditionally, so two
activity events with the same step and identical content produce two log
entries, not one. -/
theorem c4_counterexample :
    (processEvents initState
        [Event.progressMsg (ProgressMsg.json { status := some "planning" }),
         Event.progressMsg (ProgressMsg.json { detail := some "found 3 sources" }),
         Event.progressMsg (ProgressMsg.json { detail := some "found 3 sources" })]
      ).activityLog
      = [("Planning", "found 3 sources"), ("Planning", "found 3 sources")] := rfl

/-- Claim C4 amended: the reconciler's activity log is append-only with no
deduplication — every accepted activity event appends exactly one entry in
arrival order, duplicates included; a duplicate check keyed on
`(type, content)` exists only in `StreamingDisplay`'s separate
progress-updates list, where an identical pair is discarded and a new pair
is appended at the end. -/
theorem c4_activity_log_appends :
    (∀ (st : RState) (det stepId : String), st.progressOpen = true → det ≠ "" →
       stepMapping (st.statusRef.getD "unknown") = some stepId →
       (onProgressMessage st (ProgressMsg.json { detail := some det })).activityLog
         = st.activityLog ++ [(stepId, det)]) ∧
    (∀ (log : List (String × String)) (ty c : String),
       (ty, c) ∈ log → addProgressUpdate log ty c = log) ∧
    (∀ (log : List (String × String)) (ty c : String),
       (ty, c) ∉ log → addProgressUpdate log ty c = log ++ [(ty, c)]) := by
  refine ⟨?_, ?_, ?_⟩
  · intro st det stepId hp hdet hmap
    unfold onProgressMessage handleJson
    simp [hp, handleStatus, handleDetail, hdet, logActivity, hmap,
      handleMessage, storeReport, addActivity]
  · intro log ty c hmem
    have hany : (log.any fun u => u.1 == ty && u.2 == c) = true :=
      List.any_eq_true.mpr ⟨(ty, c), hmem, by simp⟩
    simp [addProgressUpdate, hany]
  · intro log ty c hmem
    have hany : ¬(log.any fun u => u.1 == ty && u.2 == c) = true := by
      intro hcontra
      rcases List.any_eq_true.mp hcontra with ⟨u, hu, hpu⟩
      rcases u with ⟨u1, u2⟩
      simp only [Bool.and_eq_true, beq_iff_eq] at hpu
      rcases hpu with ⟨rfl, rfl⟩
      exact hmem hu
    simp [addProgressUpdate, hany]

/-- Witness for the amended C4: an activity event whose `(step, content)`
pair is already in the log is appended again. -/
theorem c4_witness :
    (onProgressMessage
        { initState with
            statusRef := some "planning"
            activityLog := [("Planning", "found 3 sources")] }
        (ProgressMsg.json { detail := some "found 3 sources" })).activityLog
      = [("Planning", "found 3 sources"), ("Planning", "found 3 sources")] := by
  rw [c4_activity_log_appends.1
      { initState with
          statusRef := some "planning"
          activityLog := [("Planning", "found 3 sources")] }
      "found 3 sources" "Planning" rfl (by decide) rfl]
  rfl

/-- Claim C5 counterexample: a progress message carrying only a fresh error
field (no `status: "error"`) leaves the whole reconciler state unchanged —
no transition to `Error`, no closing of subscriptions. -/
theorem c5_counterexample :
    onProgressMessage initState (ProgressMsg.json { error := some "boom" })
      = initState ∧
    initState.currentStep ≠ "Error" ∧
    initState.progressOpen = true :=
  ⟨rfl, by decide, rfl⟩

/-- Claim C5 amended: the fatal transition is keyed on the status field
being `error`, not on the presence of a differing error payload, and no
duplicate suppression is applied on this path: any such message sets the
error (payload or default), forces `currentStep` to `Error`, closes both
subscriptions, and afterwards no event changes the state.  (The
duplicate-error check `data.error !== lastErrorMessage` lives only in
`StreamingDisplay`'s handler, which records the error without closing
subscriptions or freezing the step.) -/
theorem c5_error_status_is_fatal (st : RState) (d : ProgressData)
    (hp : st.progressOpen = true) (hs : d.status = some "error") :
    (onProgressMessage st (ProgressMsg.json d)).currentStep = "Error" ∧
    (onProgressMessage st (ProgressMsg.json d)).error
      = some (orDefault d.error "An unknown error occurred during research.") ∧
    (onProgressMessage st (ProgressMsg.json d)).progressOpen = false ∧
    (onProgressMessage st (ProgressMsg.json d)).reportOpen = false ∧
    ∀ es : List Event,
      processEvents (onProgressMessage st (ProgressMsg.json d)) es
        = onProgressMessage st (ProgressMsg.json d) := by
  have hmain : onProgressMessage st (ProgressMsg.json d)
      = handleError (handleMessage (handleDetail (handleStatus st d) d) d) d := by
    unfold onProgressMessage handleJson
    simp [hp, hs]
  refine ⟨by rw [hmain]; simp, by rw [hmain]; simp, by rw [hmain]; simp,
    by rw [hmain]; simp, ?_⟩
  intro es
  apply processEvents_closed
  · rw [hmain]; simp
  · rw [hmain]; simp

/-- Witness for the amended C5 at a concrete error frame. -/
theorem c5_witness :
    (onProgressMessage initState
        (ProgressMsg.json { status := some "error", error := some "boom" })
      ).currentStep = "Error" ∧
    (onProgressMessage initState
        (ProgressMsg.json { status := some "error", error := some "boom" })
      ).progressOpen = false := by
  have h := c5_error_status_is_fatal initState
    { status := some "error", error := some "boom" } rfl rfl
  exact ⟨h.1, h.2.2.1⟩

/-- Claim C6 counterexample: a transport-level error on the progress
subscription immediately sets the session error and forces `currentStep` to
`Error` — it is not surfaced as a non-fatal warning. -/
theorem c6_counterexample :
    (onProgressError initState).currentStep = "Error" ∧
    (onProgressError initState).error
      = some "Connection error with progress stream." ∧
    (onProgressError initState).progressOpen = false :=
  ⟨rfl, rfl, rfl⟩

/-- Claim C6 amended: only a transport error on the report subscription is
non-fatal — it clears the streaming flag and closes the report stream while
leaving the step, the error, the log, the report text and the progress
subscription untouched; a transport error on the progress subscription is
fatal: it sets the error, forces `currentStep` to `Error` and closes both
subscriptions. -/
theorem c6_transport_error_split :
    (∀ st : RState,
       (onReportError st).currentStep = st.currentStep ∧
       (onReportError st).error = st.error ∧
       (onReportError st).progressOpen = st.progressOpen ∧
       (onReportError st).activityLog = st.activityLog ∧
       (onReportError st).reportContent = st.reportContent ∧
       (onReportError st).isReportComplete = st.isReportComplete) ∧
    (∀ st : RState, st.progressOpen = true →
       (onProgressError st).currentStep = "Error" ∧
       (onProgressError st).error = some "Connection error with progress stream." ∧
       (onProgressError st).progressOpen = false ∧
       (onProgressError st).reportOpen = false) := by
  constructor
  · intro st
    unfold onReportError
    split <;> simp
  · intro st hp
    unfold onProgressError
    simp [hp]

/-- Witness for the amended C6: a report-stream disconnect mid-research
leaves the current step and error state untouched, while a progress-stream
disconnect closes everything. -/
theorem c6_witness :
    (onReportError
        { initState with reportOpen := true, currentStep := "Report" }
      ).currentStep = "Report" ∧
    (onProgressError initState).reportOpen = false := by
  have h1 := (c6_transport_error_split.1
    { initState with reportOpen := true, currentStep := "Report" }).1
  have h2 := (c6_transport_error_split.2 initState rfl).2.2.2
  exact ⟨h1, h2⟩

/-- Claim C7 counterexample: before any mappable status has been received
(`statusRef` is still unset), a non-JSON progress frame is dropped from the
activity log entirely — the state is completely unchanged, so the raw text
is not appended anywhere. -/
theorem c7_counterexample :
    onProgressMessage initState (ProgressMsg.text "raw progress line")
      = initState ∧
    initState.statusRef = none ∧
    initState.activityLog = [] :=
  ⟨rfl, rfl, rfl⟩

/-- Claim C7 amended: a non-JSON frame never changes `currentStep`; when the
last received status maps to a step it is appended to the activity log under
that step, but when no mappable status has been received (including before
any status at all) the frame leaves the reconciler state unchanged — it is
only logged to the developer console, not to the activity log. -/
theorem c7_plain_text_logging :
    (∀ (st : RState) (s stepId : String), st.progressOpen = true →
       stepMapping (st.statusRef.getD "unknown") = some stepId →
       (onProgressMessage st (ProgressMsg.text s)).activityLog
         = st.activityLog ++ [(stepId, s)] ∧
       (onProgressMessage st (ProgressMsg.text s)).currentStep = st.currentStep) ∧
    (∀ (st : RState) (s : String), st.progressOpen = true →
       stepMapping (st.statusRef.getD "unknown") = none →
       onProgressMessage st (ProgressMsg.text s) = st) := by
  constructor
  · intro st s stepId hp hmap
    unfold onProgressMessage logActivity
    simp [hp, hmap, addActivity]
  · intro st s hp hmap
    unfold onProgressMessage logActivity
    simp [hp, hmap]

/-- Witness for the amended C7: once a `searching` status has been seen, a
plain-text frame is logged under `Research` and the step is untouched. -/
theorem c7_witness :
    (onProgressMessage { initState with statusRef := some "searching" }
        (ProgressMsg.text "Scanning sources")).activityLog
      = [("Research", "Scanning sources")] ∧
    (onProgressMessage { initState with statusRef := some "searching" }
        (ProgressMsg.text "Scanning sources")).currentStep
      = "Connecting to progress stream..." := by
  have h := c7_plain_text_logging.1 { initState with statusRef := some "searching" }
    "Scanning sources" "Research" rfl rfl
  exact ⟨h.1, h.2⟩

/-- Claim C8 counterexample: a terminal-completion status with no inline
final-report payload does not defer completion — it sets `isReportComplete`
immediately and overwrites the report text with an error placeholder. -/
theorem c8_counterexample :
    (onProgressMessage initState
        (ProgressMsg.json { status := some "completed" })).isReportComplete = true ∧
    (onProgressMessage initState
        (ProgressMsg.json { status := some "completed" })).reportContent
      = "[Error: Failed to load final report content]" :=
  ⟨rfl, rfl⟩

/-- Claim C8 amended: a terminal-completion status on the progress stream
declares completion immediately from that signal alone: even without an
inline payload it sets `isReportComplete`, installs an error placeholder as
the report text, and closes both subscriptions — completion is never
deferred to the report subscription. -/
theorem c8_completion_never_deferred (st : RState) (d : ProgressData)
    (hp : st.progressOpen = true) (hs : d.status = some "completed")
    (hr : d.report = none) :
    (onProgressMessage st (ProgressMsg.json d)).isReportComplete = true ∧
    (onProgressMessage st (ProgressMsg.json d)).reportContent
      = "[Error: Failed to load final report content]" ∧
    (onProgressMessage st (ProgressMsg.json d)).progressOpen = false ∧
    (onProgressMessage st (ProgressMsg.json d)).reportOpen = false := by
  have hmain : onProgressMessage st (ProgressMsg.json d)
      = storeReport (handleCompletion
          (handleMessage (handleDetail (handleStatus st d) d) d) d) d := by
    unfold onProgressMessage handleJson
    simp [hp, hs]
  refine ⟨by rw [hmain]; simp, ?_, by rw [hmain]; simp, by rw [hmain]; simp⟩
  rw [hmain]
  simp [inlineMarkdown, hr]

/-- Witness for the amended C8 on a mid-stream state with partial text. -/
theorem c8_witness :
    (onProgressMessage
        { initState with reportContent := "partial ", isReportStreaming := true }
        (ProgressMsg.json { status := some "completed" })).isReportComplete = true ∧
    (onProgressMessage
        { initState with reportContent := "partial ", isReportStreaming := true }
        (ProgressMsg.json { status := some "completed" })).reportContent
      = "[Error: Failed to load final report content]" := by
  have h := c8_completion_never_deferred
    { initState with reportContent := "partial ", isReportStreaming := true }
    { status := some "completed" } rfl rfl rfl
  exact ⟨h.1, h.2.1⟩

/-- No branch of the JSON handler ever clears the completion flag. -/
theorem handleJson_isReportComplete_mono (st : RState) (d : ProgressData)
    (h : st.isReportComplete = true) :
    (handleJson st d).isReportComplete = true := by
  unfold handleJson
  by_cases he : d.status = some "error"
  · simp [he, h]
  · by_cases hc : d.status = some "completed"
    · simp [he, hc]
    · simp [he, hc, h]

/-- No event handler ever clears the completion flag. -/
theorem stepEvent_isReportComplete_mono (st : RState) (e : Event)
    (h : st.isReportComplete = true) :
    (stepEvent st e).isReportComplete = true := by
  cases e with
  | progressMsg m =>
      show (onProgressMessage st m).isReportComplete = true
      unfold onProgressMessage
      by_cases hp : st.progressOpen = true
      · cases m with
        | json d => simpa [hp] using handleJson_isReportComplete_mono st d h
        | text s => simp [hp, h]
      · simp [hp, h]
  | reportMsg m =>
      show (onReportMessage st m).isReportComplete = true
      unfold onReportMessage
      by_cases hr : st.reportOpen = true
      · cases m with
        | chunk s =>
            rcases eq_or_ne s "" with rfl | hs
            · simp [hr, h]
            · simp [hr, hs, h]
        | sentinel raw => simp [hr]
        | other raw => simp [hr, h]
      · simp [hr, h]
  | progressErr =>
      show (onProgressError st).isReportComplete = true
      unfold onProgressError
      split <;> simp [h]
  | reportErr =>
      show (onReportError st).isReportComplete = true
      unfold onReportError
      split <;> simp [h]

/-- The state reached after report streaming has begun, the report
subscription has been opened, and the report-stream completion sentinel has
arrived first. -/
def afterSentinel : RState :=
  onReportMessage
    (openReportStream
      (onProgressMessage initState
        (ProgressMsg.json { status := some "generating_report" })))
    (ReportMsg.sentinel "\"status\": \"completed\"")

/-- The state after the progress-stream completion signal then arrives
second (with no inline payload). -/
def afterSecondSignal : RState :=
  onProgressMessage afterSentinel (ProgressMsg.json { status := some "completed" })

/-- Claim C1 counterexample: when the report-stream completion sentinel
arrives first and a progress-stream completion signal arrives second, the
second arrival is not a no-op — it overwrites the report text (here with
the error placeholder, since it carries no payload), so the accumulator is
not sealed by the first signal. -/
theorem c1_counterexample :
    afterSentinel.isReportComplete = true ∧
    afterSentinel.reportContent = "\"status\": \"completed\"" ∧
    afterSecondSignal.reportContent
      = "[Error: Failed to load final report content]" ∧
    afterSecondSignal ≠ afterSentinel :=
  ⟨rfl, rfl, rfl, by decide⟩

/-- Claim C1 amended: completion is idempotent only at the level of the
`isComplete` flag — each of the two signals sets it, and no later event
ever clears it — but the first signal does not seal the accumulator: the
report-stream sentinel overwrites the report text with the raw sentinel
frame, and a progress-stream completion arriving second overwrites it again
(with its inline markdown when present). -/
theorem c1_completion_flag_idempotent :
    (∀ (st : RState) (e : Event), st.isReportComplete = true →
       (stepEvent st e).isReportComplete = true) ∧
    (∀ (st : RState) (d : ProgressData), st.progressOpen = true →
       d.status = some "completed" →
       (onProgressMessage st (ProgressMsg.json d)).isReportComplete = true) ∧
    (∀ (st : RState) (raw : String), st.reportOpen = true →
       (onReportMessage st (ReportMsg.sentinel raw)).isReportComplete = true ∧
       (onReportMessage st (ReportMsg.sentinel raw)).reportContent = raw) ∧
    (∀ (st : RState) (d : ProgressData) (r : ReportPayload) (md : String),
       st.progressOpen = true → st.isReportComplete = true →
       d.status = some "completed" → d.report = some r →
       r.markdown_content = some md →
       (onProgressMessage st (ProgressMsg.json d)).reportContent = md) := by
  refine ⟨stepEvent_isReportComplete_mono, ?_, ?_, ?_⟩
  · intro st d hp hs
    have hmain : onProgressMessage st (ProgressMsg.json d)
        = storeReport (handleCompletion
            (handleMessage (handleDetail (handleStatus st d) d) d) d) d := by
      unfold onProgressMessage handleJson
      simp [hp, hs]
    rw [hmain]; simp
  · intro st raw hr
    unfold onReportMessage
    simp [hr]
  · intro st d r md hp hcomp hs hrep hmd
    have hmain : onProgressMessage st (ProgressMsg.json d)
        = storeReport (handleCompletion
            (handleMessage (handleDetail (handleStatus st d) d) d) d) d := by
      unfold onProgressMessage handleJson
      simp [hp, hs]
    rw [hmain]
    simp [inlineMarkdown, hrep, hmd]

/-- Witness for the amended C1: after the sentinel has completed the
session, a further late chunk cannot clear the completion flag, and a
second completion signal carrying an inline payload overwrites the text. -/
theorem c1_witness :
    (stepEvent afterSentinel
        (Event.reportMsg (ReportMsg.chunk "late chunk"))).isReportComplete = true ∧
    (onProgressMessage afterSentinel
        (ProgressMsg.json
          { status := some "completed"
            report := some { markdown_content := some "FULL" } })).reportContent
      = "FULL" := by
  constructor
  · exact c1_completion_flag_idempotent.1 afterSentinel
      (Event.reportMsg (ReportMsg.chunk "late chunk")) rfl
  · exact c1_completion_flag_idempotent.2.2.2 afterSentinel
      { status := some "completed"
        report := some { markdown_content := some "FULL" } }
      { markdown_content := some "FULL" } "FULL" rfl rfl rfl rfl rfl

end Cognocere
